import Mathlib

/-!
Verification development for the RpiEinky display orchestration code.

The definitions below are a shallow embedding of the Python source:
`upload_server.py` (settings store, playlist advancement, playlist timer,
playlist update endpoint) and `display_latest.py` (priority resolver,
command-file processing, refresh timer, display-core settings writes).
Timestamps are embedded as `Int` seconds (Python `time.time()` floats are
only ever compared/subtracted here), list indices as `Nat`, and the two
nondeterministic effects — `random.choice` and the success/failure of a
display attempt — are passed in as explicit oracle arguments.
-/

namespace RpiEinky

abbrev Filename := String

/-- A playlist record, as stored under `settings["playlists"][name]`
    in `upload_server.py` (fields `files`, `current_index`, `randomize`,
    `last_change`; the cosmetic `name` key is omitted). -/
structure Playlist where
  files : List Filename
  currentIndex : Nat
  randomize : Bool
  lastChange : Int
  deriving DecidableEq, Repr

/-- The persisted settings document, restricted to the keys the embedded
    operations read or write (`selected_image`, `display_mode`,
    `live_mode_start_time`, `playlist_enabled`, `playlist_current_name`,
    `playlists`, `playlist_interval_minutes`, `live_mode_timeout_minutes`).
    Missing-key defaults from the `.get(...)` calls in the source are the
    field defaults here. -/
structure Settings where
  selectedImage : Option Filename := none
  displayMode : String := "manual"
  liveModeStartTime : Int := 0
  playlistEnabled : Bool := false
  playlistCurrentName : String := "default"
  playlists : List (String × Playlist) := []
  playlistIntervalMinutes : Int := 5
  liveModeTimeoutMinutes : Int := 30
  deriving DecidableEq, Repr

/-- Lookup in a Python-dict-like association list (first binding wins;
    the source dicts never hold duplicate keys). -/
def findEntry : List (String × Playlist) → String → Option Playlist
  | [], _ => none
  | (k, v) :: rest, name => if k = name then some v else findEntry rest name

/-- Python dict assignment `d[name] = pl`: replace the existing binding in
    place, or append a new one (insertion order preserved). -/
def setEntry : List (String × Playlist) → String → Playlist → List (String × Playlist)
  | [], name, pl => [(name, pl)]
  | (k, v) :: rest, name, pl =>
    if k = name then (name, pl) :: rest else (k, v) :: setEntry rest name pl

def lookupPlaylist (st : Settings) (name : String) : Option Playlist :=
  findEntry st.playlists name

def setPlaylist (st : Settings) (name : String) (pl : Playlist) : Settings :=
  { st with playlists := setEntry st.playlists name pl }

/-- The `{}` a Python `playlists.get(name, {})` produces, read back through
    the `.get` defaults used by the source. -/
def emptyPlaylist : Playlist :=
  { files := [], currentIndex := 0, randomize := false, lastChange := 0 }

/-- Outcome oracle for `display_file_on_eink` (upload_server.py:338-383).
    The function saves `selected_image`/`display_mode` first and then writes
    the command file; an exception can escape before or after that save, so
    a `False` return may or may not leave the save behind. -/
inductive DisplayOutcome
  | success
  | failBeforeSave
  | failAfterSave
  deriving DecidableEq, Repr

/-- `display_file_on_eink(filename, mode)` (upload_server.py:338-383): sets
    `selected_image` and `display_mode` in the settings store, stamps
    `live_mode_start_time` when entering live mode, then issues the display
    command; returns the updated store and the boolean result. -/
def displayFileOnEink (st : Settings) (filename : Filename) (mode : String)
    (now : Int) (oc : DisplayOutcome) : Settings × Bool :=
  let saved : Settings :=
    { st with
      selectedImage := some filename
      displayMode := mode
      liveModeStartTime := if mode = "live" then now else st.liveModeStartTime }
  match oc with
  | .success => (saved, true)
  | .failBeforeSave => (st, false)
  | .failAfterSave => (saved, false)

/-- The index selection inside `advance_playlist`
    (upload_server.py:449-462): with `randomize`, `random.choice` over all
    indices of the surviving list other than the current one (when more
    than one file survives); otherwise `(current_index + 1) % len`. `pick`
    stands for the choice `random.choice` makes, reduced modulo the number
    of candidates. -/
def advanceNewIndex (pl : Playlist) (existing : List Filename) (pick : Nat) : Nat :=
  if pl.randomize then
    if 1 < existing.length then
      let avail := (List.range existing.length).filter (fun i => i ≠ pl.currentIndex)
      avail.getD (pick % avail.length) 0
    else 0
  else (pl.currentIndex + 1) % existing.length

/-- `advance_playlist()` (upload_server.py:409-501). `folder` is the set of
    filenames currently present in the upload folder, `pick` the oracle for
    `random.choice` (reduced mod the length of the candidate list), `oc` the
    display outcome. Returns the persisted settings store after the call and
    the boolean result.

    Note the source's reload: after a successful display it calls
    `load_settings()` again, so the in-memory pruning of `current_playlist
    ['files']` computed before the display is discarded and never saved. -/
def advancePlaylist (st : Settings) (folder : List Filename) (now : Int)
    (pick : Nat) (oc : DisplayOutcome) : Settings × Bool :=
  if !st.playlistEnabled then (st, false)
  else
    match lookupPlaylist st st.playlistCurrentName with
    | none => (st, false)
    | some pl =>
      if pl.files.isEmpty then (st, false)
      else
        let existing := pl.files.filter (fun f => folder.contains f)
        if existing.isEmpty then (st, false)
        else
          -- the source updates settings['playlists'][name].files := existing
          -- here, in memory only; the reload below drops that update
          let newIndex := advanceNewIndex pl existing pick
          let filename := existing.getD newIndex ""
          let res := displayFileOnEink st filename "playlist" now oc
          if res.2 then
            -- settings = load_settings(): re-read the persisted store
            let pl1 := (lookupPlaylist res.1 st.playlistCurrentName).getD emptyPlaylist
            let pl2 := { pl1 with currentIndex := newIndex, lastChange := now }
            (setPlaylist res.1 st.playlistCurrentName pl2, true)
          else (res.1, false)

/-- `check_playlist_timer()` (upload_server.py:503-547): live-mode timeout
    check (zero timeout = stay in live mode), then playlist interval check. -/
def checkPlaylistTimer (st : Settings) (folder : List Filename) (now : Int)
    (pick : Nat) (oc : DisplayOutcome) : Settings × Bool :=
  if !st.playlistEnabled then (st, false)
  else if st.displayMode = "live" then
    if st.liveModeTimeoutMinutes = 0 then (st, false)
    else if st.liveModeTimeoutMinutes * 60 ≤ now - st.liveModeStartTime then
      advancePlaylist st folder now pick oc
    else (st, false)
  else
    match lookupPlaylist st st.playlistCurrentName with
    | none => (st, false)
    | some pl =>
      if st.playlistIntervalMinutes * 60 ≤ now - pl.lastChange then
        advancePlaylist st folder now pick oc
      else (st, false)

/-! ## Priority resolver (display_latest.py) -/

/-- A filesystem snapshot of the watched folder for the resolver: the files
    in directory iteration order (the order `Path.glob` yields them, which
    is arbitrary), each with its modification time. -/
abbrev FolderSnapshot := List (Filename × Int)

/-- Python's `f.name.startswith('.')` dotfile test, written over the
    character list so it evaluates in the kernel. -/
def startsWithDot (s : String) : Bool :=
  match s.data with
  | [] => false
  | c :: _ => c = '.'

/-- Lexicographic comparison of character lists by code point — the order
    Python string comparison uses. -/
def lexLt : List Char → List Char → Bool
  | [], [] => false
  | [], _ :: _ => true
  | _ :: _, [] => false
  | a :: as, b :: bs => if a < b then true else if b < a then false else lexLt as bs

def strLexLt (a b : String) : Bool := lexLt a.data b.data

/-- Python `max(files, key=mtime)` over a non-empty list: a later element
    replaces the running maximum only when strictly greater, so the first
    element whose mtime is maximal wins. -/
def pickFirstMax (f : Filename × Int) (l : List (Filename × Int)) : Filename × Int :=
  l.foldl (fun best g => if best.2 < g.2 then g else best) f

/-- `get_latest_file()` (display_latest.py:636-648) as the full entry:
    filters out dotfiles, then Python `max(files, key=mtime)`. -/
def getLatestEntry (folder : FolderSnapshot) : Option (Filename × Int) :=
  let files := folder.filter (fun p => !startsWithDot p.1)
  match files with
  | [] => none
  | f :: rest => some (pickFirstMax f rest)

def getLatestFile (folder : FolderSnapshot) : Option Filename :=
  (getLatestEntry folder).map (fun p => p.1)

/-- `save_selected_image_setting(filename)` (display_latest.py:568-599):
    load the settings document, overwrite `selected_image`, write it back. -/
def saveSelectedImageSetting (st : Settings) (f : Option Filename) : Settings :=
  { st with selectedImage := f }

/-- Result of one `get_priority_display_file()` call: the chosen file, the
    settings store as persisted after the call, and whether the call wrote
    the store. -/
structure ResolveResult where
  result : Option Filename
  store : Settings
  storeWritten : Bool
  deriving DecidableEq, Repr

/-- `get_priority_display_file()` (display_latest.py:650-683). Priority 1:
    `selected_image` when set (Python truthiness: `None` and `""` both skip)
    and present in the watched folder. When set but missing, the source
    clears `self.selected_image` and persists `None` via
    `save_selected_image_setting`, then falls through. Priority 2: the
    latest file; else `None`. -/
def getPriorityDisplayFile (st : Settings) (folder : FolderSnapshot) : ResolveResult :=
  match st.selectedImage with
  | some sel =>
    if sel.isEmpty then
      { result := getLatestFile folder, store := st, storeWritten := false }
    else if folder.any (fun p => p.1 = sel) then
      { result := some sel, store := st, storeWritten := false }
    else
      { result := getLatestFile folder
        store := saveSelectedImageSetting st none
        storeWritten := true }
  | none => { result := getLatestFile folder, store := st, storeWritten := false }

/-! ## Command queue processing (display_latest.py) -/

inductive LogLevel
  | info
  | warning
  | error
  deriving DecidableEq, Repr

/-- A command file as seen by `_process_command_file`: either its JSON fails
    to parse, or it parsed to `{action, filename?}`. -/
inductive CommandFile
  | malformed
  | cmd (action : String) (filename : Option Filename)
  deriving DecidableEq, Repr

/-- The display-affecting action a command execution performed. -/
inductive CommandEffect
  | noEffect
  | displayed (f : Filename)
  | refreshed
  | cleared
  | sentInfo
  | updatedInfo
  deriving DecidableEq, Repr

/-- Outcome of processing one command file: whether the backing file was
    deleted, whether an exception escaped to the watcher, the effect, and
    the warning/error-level log lines emitted (info-level logs omitted). -/
structure ProcResult where
  deleted : Bool
  raised : Bool
  effect : CommandEffect
  logs : List (LogLevel × String)
  deriving DecidableEq, Repr

/-- `_process_command_file(file_path)` (display_latest.py:842-934). A parse
    failure raises `json.JSONDecodeError`, caught by the outer handler which
    logs an error and still unlinks the file; an unknown action only logs a
    warning; in every branch the command file is unlinked at the end. -/
def processCommandFile (c : CommandFile) (folder : List Filename) : ProcResult :=
  match c with
  | .malformed =>
    { deleted := true, raised := false, effect := .noEffect
      logs := [(.error, "Error processing command file")] }
  | .cmd action fnOpt =>
    let fname := fnOpt.getD ""
    if action = "display_file" && !fname.isEmpty then
      if folder.contains fname then
        { deleted := true, raised := false, effect := .displayed fname, logs := [] }
      else
        { deleted := true, raised := false, effect := .noEffect
          logs := [(.error, "Command file not found")] }
    else if action = "refresh_display" then
      { deleted := true, raised := false, effect := .refreshed, logs := [] }
    else if action = "clear_display" then
      { deleted := true, raised := false, effect := .cleared, logs := [] }
    else if action = "get_display_info" then
      { deleted := true, raised := false, effect := .sentInfo, logs := [] }
    else if action = "update_display_info" then
      { deleted := true, raised := false, effect := .updatedInfo, logs := [] }
    else
      { deleted := true, raised := false, effect := .noEffect
        logs := [(.warning, "Unknown command action")] }

/-- The watcher hands each command file to `_process_command_file` in turn;
    since no call raises, every queued file is processed. -/
def processCommandQueue (cs : List CommandFile) (folder : List Filename) :
    List ProcResult :=
  cs.map (fun c => processCommandFile c folder)

/-! ## Refresh timer (display_latest.py) -/

/-- One iteration of the `refresh_timer_worker` loop
    (display_latest.py:312-330): sleep `refresh_interval_hours * 3600`
    seconds, then refresh unless exit was requested. The interval value is
    never tested against zero. -/
structure RefreshIteration where
  sleepSeconds : Nat
  didRefresh : Bool
  deriving DecidableEq, Repr

def refreshTimerIteration (refreshIntervalHours : Nat) (exitRequested : Bool) :
    RefreshIteration :=
  { sleepSeconds := refreshIntervalHours * 3600
    didRefresh := !exitRequested }

/-- Whether a refresh timer thread is started at all
    (display_latest.py:249 and 515): governed solely by the
    `disable_refresh_timer` flag, not by the interval value. -/
def refreshTimerStarted (disableRefreshTimer : Bool) : Bool :=
  !disableRefreshTimer

/-- The `/api/playlist` handler's validation of `live_mode_timeout_minutes`
    (upload_server.py:1494-1498): rejected only when negative, so zero is
    accepted as the "no timeout" value. -/
def liveTimeoutUpdateAccepted (t : Int) : Bool :=
  decide (0 ≤ t)

/-! ## Playlist update endpoint (upload_server.py) -/

/-- The JSON body of a `/api/playlist` POST, keys optional. -/
structure PlaylistUpdateData where
  enabled : Option Bool := none
  intervalMinutes : Option Int := none
  liveModeTimeoutMinutes : Option Int := none
  currentPlaylistName : Option String := none
  files : Option (List Filename) := none
  randomize : Option Bool := none
  playlistName : Option String := none
  deriving Repr

/-- The fresh playlist record created when `playlist_name` is not yet in
    `playlists` (upload_server.py:1514-1521). -/
def defaultNewPlaylist : Playlist :=
  { files := [], currentIndex := 0, randomize := false, lastChange := 0 }

/-- The files/randomize section of the update handler
    (upload_server.py:1509-1543) followed by the save and the
    post-save kick (1546-1554): supplied files are filtered to those
    present in the upload folder (missing ones only logged), and supplying
    `files` or `randomize` resets `current_index` to 0. Returns the
    settings document as persisted by `save_settings` and whether the
    handler then immediately calls `advance_playlist()`. -/
def updatePlaylistFilesStage (data : PlaylistUpdateData) (st : Settings)
    (folder : List Filename) : Except String (Settings × Bool) :=
  let st1 :=
    if data.files.isSome || data.randomize.isSome then
      let name := data.playlistName.getD st.playlistCurrentName
      let pl0 := (lookupPlaylist st name).getD defaultNewPlaylist
      let pl1 :=
        match data.files with
        | some fl =>
          { pl0 with
            files := fl.filter (fun f => folder.contains f)
            currentIndex := 0 }
        | none => pl0
      let pl2 :=
        match data.randomize with
        | some b => { pl1 with randomize := b, currentIndex := 0 }
        | none => pl1
      setPlaylist st name pl2
    else st
  let cur := (lookupPlaylist st1 st1.playlistCurrentName).getD defaultNewPlaylist
  .ok (st1, st1.playlistEnabled && !cur.files.isEmpty)

/-- `current_playlist_name` validation (upload_server.py:1500-1506). -/
def updatePlaylistNameStage (data : PlaylistUpdateData) (st : Settings)
    (folder : List Filename) : Except String (Settings × Bool) :=
  match data.currentPlaylistName with
  | some name =>
    if (lookupPlaylist st name).isSome then
      updatePlaylistFilesStage data { st with playlistCurrentName := name } folder
    else .error "Playlist does not exist"
  | none => updatePlaylistFilesStage data st folder

/-- `live_mode_timeout_minutes` validation (upload_server.py:1494-1498). -/
def updatePlaylistTimeoutStage (data : PlaylistUpdateData) (st : Settings)
    (folder : List Filename) : Except String (Settings × Bool) :=
  match data.liveModeTimeoutMinutes with
  | some t =>
    if t < 0 then .error "Live mode timeout must be 0 or greater"
    else updatePlaylistNameStage data { st with liveModeTimeoutMinutes := t } folder
  | none => updatePlaylistNameStage data st folder

/-- The `/api/playlist` update handler (upload_server.py:1476-1568),
    from the `enabled`/`interval_minutes` keys through validation, the
    files/randomize section, and the save. An `.error` is the endpoint's
    4xx response; `.ok (st, kick)` is the 200 response with persisted
    document `st` (`kick` records the immediate `advance_playlist()` call
    made after saving when the playlist is enabled and non-empty). -/
def updatePlaylist (data : PlaylistUpdateData) (st0 : Settings)
    (folder : List Filename) : Except String (Settings × Bool) :=
  let st :=
    match data.enabled with
    | some b => { st0 with playlistEnabled := b }
    | none => st0
  match data.intervalMinutes with
  | some i =>
    if i < 1 then .error "Interval must be at least 1 minute"
    else updatePlaylistTimeoutStage data { st with playlistIntervalMinutes := i } folder
  | none => updatePlaylistTimeoutStage data st folder

/-! ## Settings save paths as filesystem-operation scripts

`save_settings` (upload_server.py:198-252) versus the display core's
`save_settings_to_file` / `save_selected_image_setting`
(display_latest.py:525-599). Each save routine is embedded as the list of
filesystem operations it issues, and a small semantics applies them to a
snapshot, so "what a concurrent reader sees mid-save" is the content of the
settings path after any prefix of the script. -/

/-- Paths inside the settings directory. -/
inductive SPath
  | settings
  | tmp
  | backup (ts : Nat)
  deriving DecidableEq, Repr

/-- Content of a file: `truncated` is the state `open(path, "w")` leaves
    while the JSON body is not yet fully written. -/
inductive FileContent
  | truncated
  | complete (d : Settings)
  deriving DecidableEq, Repr

abbrev Fs := SPath → Option FileContent

def fsSet (fs : Fs) (p : SPath) (c : Option FileContent) : Fs :=
  fun q => if q = p then c else fs q

inductive FsOp
  | truncate (p : SPath)
  | writeAll (p : SPath) (d : Settings)
  | fsyncOp (p : SPath)
  | replace (src dst : SPath)
  | copy (src dst : SPath)
  | unlink (p : SPath)
  deriving Repr

def applyOp (fs : Fs) : FsOp → Fs
  | .truncate p => fsSet fs p (some .truncated)
  | .writeAll p d => fsSet fs p (some (.complete d))
  | .fsyncOp _ => fs
  | .replace src dst => fsSet (fsSet fs dst (fs src)) src none
  | .copy src dst => fsSet fs dst (fs src)
  | .unlink p => fsSet fs p none

def applyOps (ops : List FsOp) (fs : Fs) : Fs :=
  ops.foldl applyOp fs

/-- Everything `save_settings` (upload_server.py:198-252) does before the
    final `os.replace`: when the settings file exists non-empty, copy it to
    a timestamped backup and unlink the pruned old backups; then write the
    document to `settings.json.tmp` and flush+fsync it. -/
def saveSettingsPre (hasBackup : Bool) (ts : Nat) (pruned : List Nat)
    (d : Settings) : List FsOp :=
  (if hasBackup then
    FsOp.copy .settings (.backup ts) :: pruned.map (fun t => FsOp.unlink (.backup t))
  else [])
  ++ [FsOp.truncate .tmp, FsOp.writeAll .tmp d, FsOp.fsyncOp .tmp]

/-- `save_settings(settings)` (upload_server.py:198-252) as its full
    operation script: the preparation above, then `os.replace` of the temp
    file over `settings.json`. -/
def saveSettingsOps (hasBackup : Bool) (ts : Nat) (pruned : List Nat)
    (d : Settings) : List FsOp :=
  saveSettingsPre hasBackup ts pruned d ++ [FsOp.replace .tmp .settings]

/-- An operation that neither writes nor removes the settings path (it may
    read it, as the backup copy does). -/
def settingsUntouched : FsOp → Prop
  | .truncate p => p ≠ .settings
  | .writeAll p _ => p ≠ .settings
  | .fsyncOp _ => True
  | .replace src dst => src ≠ .settings ∧ dst ≠ .settings
  | .copy _ dst => dst ≠ .settings
  | .unlink p => p ≠ .settings

/-- The display core's settings writers, `save_settings_to_file`
    (display_latest.py:525-566) and `save_selected_image_setting`
    (display_latest.py:568-599): `open(settings_file, "w")` then
    `json.dump` — an in-place truncate-and-write on the settings path
    itself, with no temp file, no fsync, no rename and no backups. -/
def displayCoreSaveOps (d : Settings) : List FsOp :=
  [FsOp.truncate .settings, FsOp.writeAll .settings d]

/-- Backup rotation in `save_settings` (upload_server.py:209-231): create
    the new timestamped backup, then keep only the 5 newest by mtime and
    unlink the rest. `backups` pairs each backup's mtime with its content. -/
def insertByTsDesc (x : Nat × Settings) : List (Nat × Settings) → List (Nat × Settings)
  | [] => [x]
  | y :: ys => if y.1 ≤ x.1 then x :: y :: ys else y :: insertByTsDesc x ys

def sortByTsDesc : List (Nat × Settings) → List (Nat × Settings)
  | [] => []
  | x :: xs => insertByTsDesc x (sortByTsDesc xs)

def rotateBackups (backups : List (Nat × Settings)) (ts : Nat) (old : Settings) :
    List (Nat × Settings) :=
  (sortByTsDesc ((ts, old) :: backups)).take 5

/-- Projection of a successful handler result onto the persisted settings
    document (used only to state properties of `.ok` outcomes). -/
def okSettings : Except String (Settings × Bool) → Settings
  | .ok p => p.1
  | .error _ => {}

/-! ## Concrete example states used in scenarios and counterexamples -/

/-- Playlist `files=["a.png","b.png"]`, `current_index=0`, sequential;
    `a.png` no longer exists on disk in the C3 scenario. -/
def plC3 : Playlist :=
  { files := ["a.png", "b.png"], currentIndex := 0, randomize := false, lastChange := 0 }

def stC3 : Settings :=
  { selectedImage := some "b.png", displayMode := "playlist",
    playlistEnabled := true, playlists := [("default", plC3)] }

def plC4 : Playlist :=
  { files := ["a.png"], currentIndex := 0, randomize := false, lastChange := 0 }

def stC4 : Settings :=
  { playlistEnabled := true, playlists := [("default", plC4)] }

/-- The spec scenario playlist: `files=["x.png","y.png"]`,
    `current_index=0`, `randomize=false`. -/
def plC5 : Playlist :=
  { files := ["x.png", "y.png"], currentIndex := 0, randomize := false, lastChange := 0 }

def stC5 : Settings :=
  { selectedImage := some "x.png", displayMode := "playlist",
    playlistEnabled := true, playlists := [("default", plC5)] }

def plC6 : Playlist :=
  { files := ["x.png", "y.png"], currentIndex := 0, randomize := false, lastChange := 0 }

/-- Live mode entered at t=0 with a 10-minute timeout; the playlist
    currently points at `x.png`. -/
def stC6 : Settings :=
  { selectedImage := some "x.png", displayMode := "live",
    liveModeStartTime := 0, playlistEnabled := true,
    playlists := [("default", plC6)], liveModeTimeoutMinutes := 10 }

/-- Live mode with the timeout configured to zero (= disabled). -/
def stC7 : Settings :=
  { displayMode := "live", playlistEnabled := true, liveModeTimeoutMinutes := 0 }

/-- A settings store whose `selected_image` names a file that no longer
    exists in the watched folder. -/
def stC8 : Settings :=
  { selectedImage := some "a.png" }

/-- A playlist-update request supplying a files list with one entry that
    does not exist in the upload folder. -/
def dataC10 : PlaylistUpdateData :=
  { files := some ["a.png", "ghost.png"] }

/-! ## Helper lemmas -/

theorem findEntry_setEntry (l : List (String × Playlist)) (name : String) (pl : Playlist) :
    findEntry (setEntry l name pl) name = some pl := by
  induction l with
  | nil => simp [setEntry, findEntry]
  | cons hd tl ih =>
    obtain ⟨k, v⟩ := hd
    by_cases h : k = name
    · simp [setEntry, findEntry, h]
    · simp [setEntry, findEntry, h, ih]

theorem lookupPlaylist_setPlaylist (st : Settings) (name : String) (pl : Playlist) :
    lookupPlaylist (setPlaylist st name pl) name = some pl := by
  simp [lookupPlaylist, setPlaylist, findEntry_setEntry]

/-- A successful `advance_playlist` call, in closed form: the persisted
    store after the call is the store `display_file_on_eink` saved
    (selected image and playlist mode) with the current playlist's
    `current_index`/`last_change` overwritten — and, because of the reload,
    with the playlist's `files` exactly as they were before the call. -/
theorem advance_success_eq (st : Settings) (folder : List Filename) (now : Int)
    (pick : Nat) (pl : Playlist)
    (hen : st.playlistEnabled = true)
    (hpl : lookupPlaylist st st.playlistCurrentName = some pl)
    (hex : pl.files.filter (fun f => folder.contains f) ≠ []) :
    advancePlaylist st folder now pick .success =
      (setPlaylist
        { st with
          selectedImage := some ((pl.files.filter (fun f => folder.contains f)).getD
            (advanceNewIndex pl (pl.files.filter (fun f => folder.contains f)) pick) "")
          displayMode := "playlist" }
        st.playlistCurrentName
        { pl with
          currentIndex := advanceNewIndex pl (pl.files.filter (fun f => folder.contains f)) pick
          lastChange := now }, true) := by
  have hfne : pl.files ≠ [] := by
    intro h
    exact hex (by simp [h])
  unfold advancePlaylist
  rw [hen]
  simp only [Bool.not_true, Bool.false_eq_true, if_false, hpl]
  rw [if_neg (by simpa [List.isEmpty_iff] using hfne)]
  rw [if_neg (by simpa [List.isEmpty_iff] using hex)]
  simp only [displayFileOnEink]
  rw [if_neg (by decide : ¬("playlist" = "live"))]
  simp only [lookupPlaylist] at hpl
  simp [lookupPlaylist, hpl, hen]

/-- When the display step does not succeed, `advance_playlist` returns
    `False` and the playlists map of the persisted store is untouched
    (whatever `display_file_on_eink` may have saved changes only
    `selected_image` / `display_mode` / `live_mode_start_time`). -/
theorem advance_fail_spec (st : Settings) (folder : List Filename) (now : Int)
    (pick : Nat) (oc : DisplayOutcome) (hoc : oc ≠ DisplayOutcome.success) :
    (advancePlaylist st folder now pick oc).2 = false ∧
    (advancePlaylist st folder now pick oc).1.playlists = st.playlists := by
  unfold advancePlaylist
  cases oc with
  | success => exact absurd rfl hoc
  | failBeforeSave =>
    split
    · simp
    · split
      · simp
      · split
        · simp
        · simp [displayFileOnEink]
  | failAfterSave =>
    split
    · simp
    · split
      · simp
      · split
        · simp
        · simp [displayFileOnEink]
          split <;> simp

/-- With `randomize` and more than one surviving file, the candidate list
    handed to `random.choice` is exactly the indices other than the current
    one, so whatever it picks is in range and differs from the current
    index. -/
theorem advanceNewIndex_randomize (pl : Playlist) (existing : List Filename)
    (pick : Nat) (hr : pl.randomize = true) (hlen : 1 < existing.length) :
    advanceNewIndex pl existing pick ≠ pl.currentIndex ∧
    advanceNewIndex pl existing pick < existing.length := by
  have key : advanceNewIndex pl existing pick ∈
      (List.range existing.length).filter (fun i => i ≠ pl.currentIndex) := by
    simp only [advanceNewIndex, hr, if_true, if_pos hlen]
    set avail := (List.range existing.length).filter (fun i => i ≠ pl.currentIndex)
      with havail
    have hne : avail ≠ [] := by
      intro h
      by_cases hc : pl.currentIndex = 0
      · have h1 : 1 ∈ avail := by
          rw [havail]
          simp [List.mem_filter, List.mem_range, hc]
          omega
        rw [h] at h1
        simp at h1
      · have h0 : 0 ∈ avail := by
          rw [havail]
          simp [List.mem_filter, List.mem_range]
          exact ⟨by omega, fun e => hc e.symm⟩
        rw [h] at h0
        simp at h0
    have hlt : pick % avail.length < avail.length :=
      Nat.mod_lt _ (List.length_pos.mpr hne)
    rw [List.getD_eq_getElem?_getD, List.getElem?_eq_getElem hlt]
    exact List.getElem_mem _
  rw [List.mem_filter] at key
  refine ⟨by simpa using key.2, ?_⟩
  have := key.1
  rwa [List.mem_range] at this

/-- Python `max(files, key=mtime)` characterized: the result is a member,
    its mtime is maximal, and it is the FIRST element attaining the
    maximum (the `find?` conjunct), because a later element replaces the
    running maximum only on a strictly greater key. -/
theorem pickFirstMax_spec (l : List (Filename × Int)) (f : Filename × Int) :
    pickFirstMax f l ∈ f :: l ∧
    (∀ g ∈ f :: l, g.2 ≤ (pickFirstMax f l).2) ∧
    (f :: l).find? (fun g => decide ((pickFirstMax f l).2 ≤ g.2)) =
      some (pickFirstMax f l) := by
  induction l generalizing f with
  | nil =>
    refine ⟨by simp [pickFirstMax], ?_, ?_⟩
    · intro g hg
      simp only [List.mem_singleton] at hg
      simp [pickFirstMax, hg]
    · simp [pickFirstMax, List.find?]
  | cons b t ih =>
    have heq : pickFirstMax f (b :: t) = pickFirstMax (if f.2 < b.2 then b else f) t := rfl
    by_cases hfb : f.2 < b.2
    · rw [if_pos hfb] at heq
      obtain ⟨hm, hle, hfd⟩ := ih b
      refine ⟨?_, ?_, ?_⟩
      · rw [heq]
        exact List.mem_cons_of_mem f hm
      · intro x hx
        rw [heq]
        rcases List.mem_cons.mp hx with hxf | hxbt
        · calc x.2 = f.2 := by rw [hxf]
            _ ≤ b.2 := le_of_lt hfb
            _ ≤ (pickFirstMax b t).2 := hle b (List.mem_cons_self b t)
        · exact hle x hxbt
      · rw [heq]
        have hdf : decide ((pickFirstMax b t).2 ≤ f.2) = false := by
          simp only [decide_eq_false_iff_not, not_le]
          exact lt_of_lt_of_le hfb (hle b (List.mem_cons_self b t))
        simp only [List.find?, hdf]
        exact hfd
    · rw [if_neg hfb] at heq
      have hbf : b.2 ≤ f.2 := not_lt.mp hfb
      obtain ⟨hm, hle, hfd⟩ := ih f
      refine ⟨?_, ?_, ?_⟩
      · rw [heq]
        rcases List.mem_cons.mp hm with hef | het
        · rw [hef]
          exact List.mem_cons_self f (b :: t)
        · exact List.mem_cons_of_mem f (List.mem_cons_of_mem b het)
      · intro x hx
        rw [heq]
        rcases List.mem_cons.mp hx with hxf | hx2
        · rw [hxf]
          exact hle f (List.mem_cons_self f t)
        · rcases List.mem_cons.mp hx2 with hxb | hxt
          · calc x.2 = b.2 := by rw [hxb]
              _ ≤ f.2 := hbf
              _ ≤ (pickFirstMax f t).2 := hle f (List.mem_cons_self f t)
          · exact hle x (List.mem_cons_of_mem f hxt)
      · rw [heq]
        by_cases hef : (pickFirstMax f t).2 ≤ f.2
        · have hdf : decide ((pickFirstMax f t).2 ≤ f.2) = true := by
            simpa using hef
          simp only [List.find?, hdf] at hfd ⊢
          exact hfd
        · have hdf : decide ((pickFirstMax f t).2 ≤ f.2) = false := by
            simpa using hef
          have hdb : decide ((pickFirstMax f t).2 ≤ b.2) = false := by
            simp only [decide_eq_false_iff_not, not_le]
            have hef2 : ¬(pickFirstMax f t).2 ≤ f.2 := hef
            omega
          simp only [List.find?, hdf, hdb] at hfd ⊢
          exact hfd

/-- `advance_playlist` on a playlist none of whose files survive on disk
    (including the no-files case) is a strict no-op returning `False`. -/
theorem advance_empty_spec (st : Settings) (folder : List Filename) (now : Int)
    (pick : Nat) (oc : DisplayOutcome) (pl : Playlist)
    (hpl : lookupPlaylist st st.playlistCurrentName = some pl)
    (hex : pl.files.filter (fun f => folder.contains f) = []) :
    advancePlaylist st folder now pick oc = (st, false) := by
  unfold advancePlaylist
  by_cases hen : st.playlistEnabled
  · rw [hen]
    simp only [Bool.not_true, Bool.false_eq_true, if_false, hpl]
    by_cases hfe : pl.files = []
    · rw [if_pos (by simpa [List.isEmpty_iff] using hfe)]
    · rw [if_neg (by simpa [List.isEmpty_iff] using hfe)]
      rw [if_pos (by simpa [List.isEmpty_iff] using hex)]
  · simp [Bool.eq_false_iff.mpr hen]

theorem applyOp_settings (fs : Fs) (op : FsOp) (h : settingsUntouched op) :
    applyOp fs op SPath.settings = fs SPath.settings := by
  cases op with
  | truncate p =>
    simp only [settingsUntouched] at h
    simp [applyOp, fsSet, Ne.symm h]
  | writeAll p d =>
    simp only [settingsUntouched] at h
    simp [applyOp, fsSet, Ne.symm h]
  | fsyncOp p => rfl
  | replace src dst =>
    simp only [settingsUntouched] at h
    simp [applyOp, fsSet, Ne.symm h.1, Ne.symm h.2]
  | copy src dst =>
    simp only [settingsUntouched] at h
    simp [applyOp, fsSet, Ne.symm h]
  | unlink p =>
    simp only [settingsUntouched] at h
    simp [applyOp, fsSet, Ne.symm h]

theorem applyOps_settings (ops : List FsOp) (fs : Fs)
    (h : ∀ op ∈ ops, settingsUntouched op) :
    applyOps ops fs SPath.settings = fs SPath.settings := by
  induction ops generalizing fs with
  | nil => rfl
  | cons op rest ih =>
    have h1 : settingsUntouched op := h op (List.mem_cons_self op rest)
    have h2 : ∀ o ∈ rest, settingsUntouched o :=
      fun o ho => h o (List.mem_cons_of_mem op ho)
    calc applyOps (op :: rest) fs SPath.settings
        = applyOps rest (applyOp fs op) SPath.settings := rfl
      _ = applyOp fs op SPath.settings := ih (applyOp fs op) h2
      _ = fs SPath.settings := applyOp_settings fs op h1

theorem saveSettingsPre_untouched (hasBackup : Bool) (ts : Nat) (pruned : List Nat)
    (d : Settings) :
    ∀ op ∈ saveSettingsPre hasBackup ts pruned d, settingsUntouched op := by
  intro op hop
  simp only [saveSettingsPre, List.mem_append] at hop
  rcases hop with hpre | htail
  · cases hasBackup with
    | false => simp at hpre
    | true =>
      simp only [if_true, List.mem_cons] at hpre
      rcases hpre with hcopy | hunlink
      · subst hcopy
        simp [settingsUntouched]
      · simp only [List.mem_map] at hunlink
        obtain ⟨t, _, ht⟩ := hunlink
        subst ht
        simp [settingsUntouched]
  · simp only [List.mem_cons] at htail
    rcases htail with h1 | h2
    · subst h1; simp [settingsUntouched]
    · rcases h2 with h2 | h3
      · subst h2; simp [settingsUntouched]
      · rcases h3 with h3 | h4
        · subst h3; simp [settingsUntouched]
        · simp at h4

/-- After the preparation phase of `save_settings`, the temp file holds the
    complete new document. -/
theorem saveSettingsPre_tmp (hasBackup : Bool) (ts : Nat) (pruned : List Nat)
    (d : Settings) (fs : Fs) :
    applyOps (saveSettingsPre hasBackup ts pruned d) fs SPath.tmp =
      some (FileContent.complete d) := by
  simp only [saveSettingsPre, applyOps, List.foldl_append]
  simp [applyOp, fsSet]

/-- Atomicity of the web process's save path: a reader looking at the
    settings file after ANY prefix of the `save_settings` operation script
    sees either the fully-old content or the fully-new document, never a
    partially written one. -/
theorem saveSettingsOps_old_or_new (hasBackup : Bool) (ts : Nat)
    (pruned : List Nat) (d : Settings) (fs : Fs) (k : Nat) :
    applyOps ((saveSettingsOps hasBackup ts pruned d).take k) fs SPath.settings =
      fs SPath.settings ∨
    applyOps ((saveSettingsOps hasBackup ts pruned d).take k) fs SPath.settings =
      some (FileContent.complete d) := by
  rw [saveSettingsOps, List.take_append_eq_append_take]
  by_cases hk : k ≤ (saveSettingsPre hasBackup ts pruned d).length
  · left
    have h0 : k - (saveSettingsPre hasBackup ts pruned d).length = 0 :=
      Nat.sub_eq_zero_of_le hk
    rw [h0]
    simp only [List.take_zero, List.append_nil]
    exact applyOps_settings _ fs
      (fun op hop => saveSettingsPre_untouched hasBackup ts pruned d op
        (List.take_subset k _ hop))
  · right
    push_neg at hk
    have htk : (saveSettingsPre hasBackup ts pruned d).take k =
        saveSettingsPre hasBackup ts pruned d :=
      List.take_of_length_le (le_of_lt hk)
    have hrem : k - (saveSettingsPre hasBackup ts pruned d).length ≠ 0 := by omega
    obtain ⟨m, hm⟩ := Nat.exists_eq_succ_of_ne_zero hrem
    rw [hm, htk]
    simp only [List.take_succ_cons, List.take_nil]
    simp only [applyOps, List.foldl_append, List.foldl_cons, List.foldl_nil]
    have htmp := saveSettingsPre_tmp hasBackup ts pruned d fs
    simp only [applyOps] at htmp
    simp [applyOp, fsSet, htmp]

/-- With a valid (or absent) `live_mode_timeout_minutes`, the timeout stage
    passes through to the name stage, leaving playlists and the current
    playlist name untouched. -/
theorem timeoutStage_reduces (data : PlaylistUpdateData) (st : Settings)
    (folder : List Filename)
    (htm : ∀ t, data.liveModeTimeoutMinutes = some t → 0 ≤ t) :
    ∃ st', updatePlaylistTimeoutStage data st folder =
        updatePlaylistNameStage data st' folder ∧
      st'.playlists = st.playlists ∧
      st'.playlistCurrentName = st.playlistCurrentName ∧
      st'.playlistEnabled = st.playlistEnabled := by
  cases ht : data.liveModeTimeoutMinutes with
  | none => exact ⟨st, by simp [updatePlaylistTimeoutStage, ht], rfl, rfl, rfl⟩
  | some t =>
    have ht0 := htm t ht
    refine ⟨{ st with liveModeTimeoutMinutes := t }, ?_, rfl, rfl, rfl⟩
    simp only [updatePlaylistTimeoutStage, ht]
    rw [if_neg (by omega)]

/-- With a valid (or absent) `current_playlist_name`, the name stage passes
    through to the files stage, switching the current playlist name when
    one was supplied. -/
theorem nameStage_reduces (data : PlaylistUpdateData) (st : Settings)
    (folder : List Filename)
    (hname : ∀ nm, data.currentPlaylistName = some nm →
      (lookupPlaylist st nm).isSome = true) :
    ∃ st', updatePlaylistNameStage data st folder =
        updatePlaylistFilesStage data st' folder ∧
      st'.playlists = st.playlists ∧
      st'.playlistCurrentName = data.currentPlaylistName.getD st.playlistCurrentName ∧
      st'.playlistEnabled = st.playlistEnabled := by
  cases hn : data.currentPlaylistName with
  | none => exact ⟨st, by simp [updatePlaylistNameStage, hn], rfl, rfl, rfl⟩
  | some nm =>
    refine ⟨{ st with playlistCurrentName := nm }, ?_, rfl, rfl, rfl⟩
    simp only [updatePlaylistNameStage, hn]
    rw [if_pos (hname nm hn)]

/-- With a valid (or absent) `interval_minutes`, the handler entry reduces
    to the timeout stage, with only `playlist_enabled` and the interval
    possibly changed. -/
theorem updatePlaylist_reduces (data : PlaylistUpdateData) (st : Settings)
    (folder : List Filename)
    (hint : ∀ i, data.intervalMinutes = some i → 1 ≤ i) :
    ∃ st', updatePlaylist data st folder =
        updatePlaylistTimeoutStage data st' folder ∧
      st'.playlists = st.playlists ∧
      st'.playlistCurrentName = st.playlistCurrentName ∧
      st'.playlistEnabled = (data.enabled.getD st.playlistEnabled) := by
  cases hen : data.enabled with
  | none =>
    cases hi : data.intervalMinutes with
    | none => exact ⟨st, by simp [updatePlaylist, hen, hi], rfl, rfl, rfl⟩
    | some i =>
      have hi1 := hint i hi
      refine ⟨{ st with playlistIntervalMinutes := i }, ?_, rfl, rfl, rfl⟩
      simp only [updatePlaylist, hen, hi]
      rw [if_neg (by omega)]
  | some b =>
    cases hi : data.intervalMinutes with
    | none =>
      exact ⟨{ st with playlistEnabled := b }, by simp [updatePlaylist, hen, hi],
        rfl, rfl, rfl⟩
    | some i =>
      have hi1 := hint i hi
      refine ⟨{ st with playlistEnabled := b, playlistIntervalMinutes := i },
        ?_, rfl, rfl, rfl⟩
      simp only [updatePlaylist, hen, hi]
      rw [if_neg (by omega)]

/-- The files stage always succeeds, and when `files` or `randomize` is
    supplied the target playlist is saved with `current_index = 0` and, when
    `files` is supplied, with exactly the supplied names that exist in the
    upload folder. -/
theorem filesStage_spec (data : PlaylistUpdateData) (st : Settings)
    (folder : List Filename) :
    (updatePlaylistFilesStage data st folder).isOk = true ∧
    (∀ fl, data.files = some fl →
      ((lookupPlaylist (okSettings (updatePlaylistFilesStage data st folder))
          (data.playlistName.getD st.playlistCurrentName)).getD
        defaultNewPlaylist).files = fl.filter (fun f => folder.contains f) ∧
      ((lookupPlaylist (okSettings (updatePlaylistFilesStage data st folder))
          (data.playlistName.getD st.playlistCurrentName)).getD
        defaultNewPlaylist).currentIndex = 0) ∧
    (data.randomize.isSome = true →
      ((lookupPlaylist (okSettings (updatePlaylistFilesStage data st folder))
          (data.playlistName.getD st.playlistCurrentName)).getD
        defaultNewPlaylist).currentIndex = 0) := by
  refine ⟨?_, ?_, ?_⟩
  · simp [updatePlaylistFilesStage, Except.isOk, Except.toBool]
  · intro fl hfl
    have hsome : data.files.isSome || data.randomize.isSome = true := by
      simp [hfl]
    simp only [updatePlaylistFilesStage, hsome, if_true, hfl, okSettings]
    cases hr : data.randomize with
    | none => simp [lookupPlaylist_setPlaylist]
    | some b => simp [lookupPlaylist_setPlaylist]
  · intro hr
    rw [Option.isSome_iff_exists] at hr
    obtain ⟨b, hb⟩ := hr
    have hsome : data.files.isSome || data.randomize.isSome = true := by
      simp [hb]
    simp only [updatePlaylistFilesStage, hsome, if_true, hb, okSettings]
    cases hfl : data.files with
    | none => simp [lookupPlaylist_setPlaylist]
    | some fl => simp [lookupPlaylist_setPlaylist]

/-! ## Claim theorems -/

/-- C1 counterexample: the claim says BOTH writer processes follow the
    atomic temp+fsync+rename path. The display core's writers do not: one
    step into `displayCoreSaveOps` (the `open(settings_file, "w")` truncate)
    a reader of the settings file sees a truncated document that is neither
    the fully-old nor the fully-new one. -/
theorem c1_displayCore_partial_visible :
    applyOps ((displayCoreSaveOps { selectedImage := some "a.png" }).take 1)
        (fun p => if p = SPath.settings
          then some (FileContent.complete {}) else none)
        SPath.settings = some FileContent.truncated ∧
    some FileContent.truncated ≠ some (FileContent.complete ({} : Settings)) ∧
    some FileContent.truncated ≠
      some (FileContent.complete { selectedImage := some "a.png" }) := by
  refine ⟨rfl, by simp, by simp⟩

/-- C1 amended: the web process's `save_settings` is atomic — after any
    prefix of its operation script a reader of the settings file sees the
    fully-old or the fully-new document, the completed script installs the
    new document, and backup rotation keeps at most 5 backups — while the
    display core's settings writers are a plain in-place truncate+write on
    the settings path (no temp file, fsync, rename or backups). -/
theorem c1_amended_atomicity (hasBackup : Bool) (ts : Nat) (pruned : List Nat)
    (d : Settings) (fs : Fs) (k : Nat) (backups : List (Nat × Settings))
    (tsb : Nat) (old : Settings) :
    (applyOps ((saveSettingsOps hasBackup ts pruned d).take k) fs SPath.settings =
        fs SPath.settings ∨
      applyOps ((saveSettingsOps hasBackup ts pruned d).take k) fs SPath.settings =
        some (FileContent.complete d)) ∧
    applyOps (saveSettingsOps hasBackup ts pruned d) fs SPath.settings =
      some (FileContent.complete d) ∧
    (rotateBackups backups tsb old).length ≤ 5 ∧
    displayCoreSaveOps d =
      [FsOp.truncate SPath.settings, FsOp.writeAll SPath.settings d] := by
  refine ⟨saveSettingsOps_old_or_new hasBackup ts pruned d fs k, ?_, ?_, rfl⟩
  · simp only [saveSettingsOps, applyOps, List.foldl_append, List.foldl_cons,
      List.foldl_nil]
    have htmp := saveSettingsPre_tmp hasBackup ts pruned d fs
    simp only [applyOps] at htmp
    simp [applyOp, fsSet, htmp]
  · simp only [rotateBackups]
    exact List.length_take_le _ _

/-- C2 counterexample: on an mtime tie `get_latest_file` returns the first
    file in directory iteration order (Python `max` keeps the running
    maximum), not the lexicographically greater filename the claim
    requires: with listing order `a.png` before `b.png` and equal mtimes it
    returns `a.png` even though `b.png` is lexicographically greater. -/
theorem c2_tiebreak_counterexample :
    getLatestFile [("a.png", 5), ("b.png", 5)] = some "a.png" ∧
    getLatestFile [("a.png", 5), ("b.png", 5)] ≠ some "b.png" ∧
    strLexLt "a.png" "b.png" = true := by
  refine ⟨by decide, by decide, by decide⟩

/-- C2 amended: in manual mode the resolver returns `selected_image`
    whenever that file exists in the watched folder (even if others are
    newer); when it is unset or its file no longer exists it falls through,
    without error, to the latest non-dotfile; the folder being empty of
    non-dotfiles yields none; and "latest" means: a member of maximal
    mtime, ties broken by the FIRST file in directory iteration order (not
    by lexicographic order). -/
theorem c2_amended_resolver (st : Settings) (folder : FolderSnapshot)
    (sel : Filename) (hmode : st.displayMode = "manual") :
    (st.selectedImage = some sel → sel.isEmpty = false →
      folder.any (fun p => p.1 = sel) = true →
      getPriorityDisplayFile st folder =
        { result := some sel, store := st, storeWritten := false }) ∧
    (st.selectedImage = none →
      (getPriorityDisplayFile st folder).result = getLatestFile folder) ∧
    (st.selectedImage = some sel → folder.any (fun p => p.1 = sel) = false →
      (getPriorityDisplayFile st folder).result = getLatestFile folder) ∧
    (folder.filter (fun p => !startsWithDot p.1) = [] →
      getLatestFile folder = none) ∧
    (∀ e, getLatestEntry folder = some e →
      e ∈ folder.filter (fun p => !startsWithDot p.1) ∧
      (∀ g ∈ folder.filter (fun p => !startsWithDot p.1), g.2 ≤ e.2) ∧
      (folder.filter (fun p => !startsWithDot p.1)).find?
        (fun g => decide (e.2 ≤ g.2)) = some e) := by
  refine ⟨?_, ?_, ?_, ?_, ?_⟩
  · intro h1 h2 h3
    simp [getPriorityDisplayFile, h1, h2, h3]
  · intro h1
    simp [getPriorityDisplayFile, h1]
  · intro h1 h2
    cases hemp : sel.isEmpty with
    | true => simp [getPriorityDisplayFile, h1, hemp]
    | false => simp [getPriorityDisplayFile, h1, hemp, h2]
  · intro h
    simp [getLatestFile, getLatestEntry, h]
  · intro e he
    cases hf : folder.filter (fun p => !startsWithDot p.1) with
    | nil => simp [getLatestEntry, hf] at he
    | cons f rest =>
      have he2 : pickFirstMax f rest = e := by
        simp only [getLatestEntry, hf] at he
        exact Option.some.inj he
      obtain ⟨hm, hle, hfd⟩ := pickFirstMax_spec rest f
      rw [he2] at hm hle hfd
      exact ⟨hm, hle, hfd⟩

/-- C2 witness: the spec scenario — `selected_image = "a.png"` with a newer
    `b.png` present — resolves to `a.png` with no store write. -/
theorem c2_amended_witness :
    getPriorityDisplayFile
        { selectedImage := some "a.png", displayMode := "manual" }
        [("a.png", 5), ("b.png", 9)] =
      { result := some "a.png",
        store := { selectedImage := some "a.png", displayMode := "manual" },
        storeWritten := false } :=
  (c2_amended_resolver
      { selectedImage := some "a.png", displayMode := "manual" }
      [("a.png", 5), ("b.png", 9)] "a.png" rfl).1 rfl (by decide) (by decide)

/-- C3: after a successful `Advance` with a stale entry (`a.png` deleted
    from disk), the persisted playlist still lists `a.png` — the in-memory
    pruning is discarded by the post-display `load_settings()` reload before
    the index/timestamp save, so stale entries are NOT removed from the
    persisted list, contradicting both the claim and the source's own
    "Updated playlist ... removed missing files" log line. -/
theorem c3_stale_entry_persisted :
    (advancePlaylist stC3 ["b.png"] 100 0 DisplayOutcome.success).2 = true ∧
    findEntry
        (advancePlaylist stC3 ["b.png"] 100 0 DisplayOutcome.success).1.playlists
        "default" =
      some { files := ["a.png", "b.png"], currentIndex := 0, randomize := false,
             lastChange := 100 } ∧
    (["b.png"] : List Filename).contains "a.png" = false := by
  refine ⟨by decide, by decide, by decide⟩

/-- C4: when the display step does not succeed, `advance_playlist` returns
    failure and leaves every persisted playlist — in particular the current
    playlist's `current_index` and `last_change` — unchanged (they are
    persisted only in the success branch); and on a playlist whose
    surviving file list is empty, `advance_playlist` is a strict no-op
    returning failure with the whole store unchanged. -/
theorem c4_display_failure_no_advance (st : Settings) (folder : List Filename)
    (now : Int) (pick : Nat) (oc : DisplayOutcome) :
    (oc ≠ DisplayOutcome.success →
      (advancePlaylist st folder now pick oc).2 = false ∧
      (advancePlaylist st folder now pick oc).1.playlists = st.playlists) ∧
    (∀ pl, lookupPlaylist st st.playlistCurrentName = some pl →
      pl.files.filter (fun f => folder.contains f) = [] →
      advancePlaylist st folder now pick oc = (st, false)) :=
  ⟨fun hoc => advance_fail_spec st folder now pick oc hoc,
   fun pl hpl hex => advance_empty_spec st folder now pick oc pl hpl hex⟩

/-- C4 witness: a playlist whose only file is gone from disk — `Advance`
    is a no-op returning failure. -/
theorem c4_witness :
    advancePlaylist stC4 ["c.png"] 50 0 DisplayOutcome.failBeforeSave =
      (stC4, false) :=
  (c4_display_failure_no_advance stC4 ["c.png"] 50 0
      DisplayOutcome.failBeforeSave).2 plC4 (by decide) (by decide)

/-- C5: on a successful `Advance` over a surviving list of length `n ≥ 1`,
    sequential mode persists index `(current + 1) % n` and displays that
    entry; randomize mode with `n > 1` persists an in-range index different
    from the current one for every possible `random.choice` outcome; and
    the spec scenario holds: from `files=["x.png","y.png"]`, index 0,
    sequential, one `Advance` yields (`y.png`, 1) and a second yields
    (`x.png`, 0). -/
theorem c5_advance_index_spec (st : Settings) (folder : List Filename)
    (now : Int) (pick : Nat) (pl : Playlist)
    (hen : st.playlistEnabled = true)
    (hpl : lookupPlaylist st st.playlistCurrentName = some pl)
    (hex : pl.files.filter (fun f => folder.contains f) ≠ []) :
    (pl.randomize = false →
      ((lookupPlaylist (advancePlaylist st folder now pick DisplayOutcome.success).1
          st.playlistCurrentName).getD emptyPlaylist).currentIndex =
        (pl.currentIndex + 1) % (pl.files.filter (fun f => folder.contains f)).length ∧
      (advancePlaylist st folder now pick DisplayOutcome.success).1.selectedImage =
        some ((pl.files.filter (fun f => folder.contains f)).getD
          ((pl.currentIndex + 1) %
            (pl.files.filter (fun f => folder.contains f)).length) "")) ∧
    (pl.randomize = true →
      1 < (pl.files.filter (fun f => folder.contains f)).length →
      ((lookupPlaylist (advancePlaylist st folder now pick DisplayOutcome.success).1
          st.playlistCurrentName).getD emptyPlaylist).currentIndex ≠ pl.currentIndex ∧
      ((lookupPlaylist (advancePlaylist st folder now pick DisplayOutcome.success).1
          st.playlistCurrentName).getD emptyPlaylist).currentIndex <
        (pl.files.filter (fun f => folder.contains f)).length) ∧
    ((advancePlaylist stC5 ["x.png", "y.png"] 10 0
        DisplayOutcome.success).1.selectedImage = some "y.png" ∧
      ((lookupPlaylist (advancePlaylist stC5 ["x.png", "y.png"] 10 0
          DisplayOutcome.success).1 "default").getD emptyPlaylist).currentIndex = 1 ∧
      (advancePlaylist (advancePlaylist stC5 ["x.png", "y.png"] 10 0
          DisplayOutcome.success).1 ["x.png", "y.png"] 20 0
        DisplayOutcome.success).1.selectedImage = some "x.png" ∧
      ((lookupPlaylist (advancePlaylist (advancePlaylist stC5 ["x.png", "y.png"] 10 0
            DisplayOutcome.success).1 ["x.png", "y.png"] 20 0
          DisplayOutcome.success).1 "default").getD emptyPlaylist).currentIndex = 0) := by
  have hadv := advance_success_eq st folder now pick pl hen hpl hex
  refine ⟨?_, ?_, ?_⟩
  · intro hr
    rw [hadv]
    constructor
    · simp [lookupPlaylist_setPlaylist, advanceNewIndex, hr]
    · simp [setPlaylist, advanceNewIndex, hr]
  · intro hr hlen
    have h2 := advanceNewIndex_randomize pl
      (pl.files.filter (fun f => folder.contains f)) pick hr hlen
    rw [hadv]
    constructor
    · simpa [lookupPlaylist_setPlaylist] using h2.1
    · simpa [lookupPlaylist_setPlaylist] using h2.2
  · refine ⟨by decide, by decide, by decide, by decide⟩

/-- C5 witness: the scenario instance — first `Advance` from index 0 over
    `["x.png","y.png"]` displays `y.png` and persists index 1. -/
theorem c5_witness :
    (advancePlaylist stC5 ["x.png", "y.png"] 10 0
        DisplayOutcome.success).1.selectedImage = some "y.png" ∧
    ((lookupPlaylist (advancePlaylist stC5 ["x.png", "y.png"] 10 0
        DisplayOutcome.success).1 "default").getD emptyPlaylist).currentIndex = 1 := by
  have h := (c5_advance_index_spec stC5 ["x.png", "y.png"] 10 0 plC5
    (by decide) (by decide) (by decide)).2.2
  exact ⟨h.1, h.2.1⟩

/-- C6 counterexample: the live-mode timeout tick does NOT redisplay the
    current playlist file — it calls `advance_playlist`, which advances to
    and displays the NEXT file: with the playlist pointing at `x.png`
    (index 0), the tick after an elapsed 10-minute timeout displays
    `y.png`. -/
theorem c6_timeout_advances_counterexample :
    (checkPlaylistTimer stC6 ["x.png", "y.png"] 660 0
        DisplayOutcome.success).1.selectedImage = some "y.png" ∧
    (checkPlaylistTimer stC6 ["x.png", "y.png"] 660 0
        DisplayOutcome.success).1.selectedImage ≠ some "x.png" ∧
    stC6.selectedImage = some "x.png" ∧
    plC6.files.getD plC6.currentIndex "" = "x.png" ∧
    (checkPlaylistTimer stC6 ["x.png", "y.png"] 660 0
        DisplayOutcome.success).1.displayMode = "playlist" := by
  refine ⟨by decide, by decide, by decide, by decide, by decide⟩

/-- C6 amended: in live mode with a positive timeout and playlist as the
    enabled baseline, a tick at or after the timeout transitions the mode
    back to playlist and displays the NEXT playlist file (the playlist is
    advanced, not redisplayed), provided the playlist has surviving files;
    a tick before the timeout elapses changes nothing. -/
theorem c6_amended_live_timeout (st : Settings) (folder : List Filename)
    (now : Int) (pick : Nat) (oc : DisplayOutcome) (pl : Playlist)
    (hen : st.playlistEnabled = true)
    (hlive : st.displayMode = "live")
    (hpos : 0 < st.liveModeTimeoutMinutes)
    (hpl : lookupPlaylist st st.playlistCurrentName = some pl)
    (hex : pl.files.filter (fun f => folder.contains f) ≠ []) :
    (st.liveModeTimeoutMinutes * 60 ≤ now - st.liveModeStartTime →
      (checkPlaylistTimer st folder now pick DisplayOutcome.success).2 = true ∧
      (checkPlaylistTimer st folder now pick DisplayOutcome.success).1.displayMode =
        "playlist" ∧
      (checkPlaylistTimer st folder now pick DisplayOutcome.success).1.selectedImage =
        some ((pl.files.filter (fun f => folder.contains f)).getD
          (advanceNewIndex pl (pl.files.filter (fun f => folder.contains f)) pick)
          "")) ∧
    (now - st.liveModeStartTime < st.liveModeTimeoutMinutes * 60 →
      checkPlaylistTimer st folder now pick oc = (st, false)) := by
  have hct : ∀ oc' : DisplayOutcome, checkPlaylistTimer st folder now pick oc' =
      if st.liveModeTimeoutMinutes * 60 ≤ now - st.liveModeStartTime then
        advancePlaylist st folder now pick oc'
      else (st, false) := by
    intro oc'
    unfold checkPlaylistTimer
    rw [hen]
    simp only [Bool.not_true, Bool.false_eq_true, if_false, hlive, if_true]
    rw [if_neg (by omega : ¬st.liveModeTimeoutMinutes = 0)]
  constructor
  · intro hcond
    rw [hct DisplayOutcome.success, if_pos hcond,
      advance_success_eq st folder now pick pl hen hpl hex]
    refine ⟨rfl, ?_, ?_⟩ <;> simp [setPlaylist]
  · intro hcond
    rw [hct oc, if_neg (not_le.mpr hcond)]

/-- C6 witness: the spec scenario — live mode, 10-minute timeout, entered
    11 minutes ago, playlist baseline — the tick returns success and the
    persisted mode is `playlist`. -/
theorem c6_amended_witness :
    (checkPlaylistTimer stC6 ["x.png", "y.png"] 660 0
        DisplayOutcome.success).2 = true ∧
    (checkPlaylistTimer stC6 ["x.png", "y.png"] 660 0
        DisplayOutcome.success).1.displayMode = "playlist" := by
  have h := (c6_amended_live_timeout stC6 ["x.png", "y.png"] 660 0
      DisplayOutcome.success plC6 (by decide) (by decide) (by decide)
      (by decide) (by decide)).1 (by decide)
  exact ⟨h.1, h.2.1⟩

/-- C7 counterexample: a zero `refresh_interval_hours` does not disable the
    ghosting-refresh timer — a loop iteration sleeps zero seconds and still
    performs a refresh. -/
theorem c7_zero_interval_counterexample :
    (refreshTimerIteration 0 false).didRefresh = true ∧
    (refreshTimerIteration 0 false).sleepSeconds = 0 := by
  exact ⟨rfl, rfl⟩

/-- C7 amended: a zero `live_mode_timeout_minutes` does disable the
    live-to-playlist timeout (and zero is accepted as a valid off value by
    the settings endpoint), but the ghosting-refresh timer is governed by
    the separate `disable_refresh_timer` flag, not by its interval: an
    enabled worker iteration sleeps `interval*3600` seconds and then
    refreshes regardless of the interval value, including zero. -/
theorem c7_amended_zero_durations (st : Settings) (folder : List Filename)
    (now : Int) (pick : Nat) (oc : DisplayOutcome) (disable : Bool) (k : Nat) :
    (st.playlistEnabled = true → st.displayMode = "live" →
      st.liveModeTimeoutMinutes = 0 →
      checkPlaylistTimer st folder now pick oc = (st, false)) ∧
    liveTimeoutUpdateAccepted 0 = true ∧
    refreshTimerStarted disable = !disable ∧
    (refreshTimerIteration k false).didRefresh = true ∧
    (refreshTimerIteration k false).sleepSeconds = k * 3600 := by
  refine ⟨?_, by decide, rfl, rfl, rfl⟩
  intro h1 h2 h3
  unfold checkPlaylistTimer
  simp [h1, h2, h3]

/-- C7 witness: live mode with timeout 0 — the tick leaves the store
    unchanged and reports no transition. -/
theorem c7_amended_witness :
    checkPlaylistTimer stC7 [] 1000000 0 DisplayOutcome.success =
      (stC7, false) :=
  (c7_amended_zero_durations stC7 [] 1000000 0 DisplayOutcome.success
      false 0).1 rfl rfl rfl

/-- C8 counterexample: `Resolve` is not free of side effects on the
    Settings Store — when `selected_image` names a missing file it clears
    the selection and persists `selected_image = None`, so the persisted
    store after the call differs from the store before it. -/
theorem c8_resolver_writes_store_counterexample :
    (getPriorityDisplayFile stC8 [("b.png", 1)]).storeWritten = true ∧
    (getPriorityDisplayFile stC8 [("b.png", 1)]).store ≠ stC8 ∧
    (getPriorityDisplayFile stC8 [("b.png", 1)]).store.selectedImage = none ∧
    stC8.selectedImage = some "a.png" := by
  refine ⟨by decide, by decide, by decide, by decide⟩

/-- C8 amended: for a fixed (settings, filesystem-snapshot) pair the
    resolver's result is deterministic and stable under repetition (a
    second call on the store it left behind returns the same result), and
    it leaves the Settings Store unmodified EXCEPT in one case: when
    `selected_image` is set (non-empty) and its file is absent from the
    folder, it writes the store with `selected_image` cleared. -/
theorem c8_amended_resolver_effect (st : Settings) (folder : FolderSnapshot) :
    ((getPriorityDisplayFile (getPriorityDisplayFile st folder).store folder).result =
      (getPriorityDisplayFile st folder).result) ∧
    ((getPriorityDisplayFile st folder).storeWritten = false →
      (getPriorityDisplayFile st folder).store = st) ∧
    ((getPriorityDisplayFile st folder).storeWritten = true →
      (getPriorityDisplayFile st folder).store = { st with selectedImage := none } ∧
      ∃ sel, st.selectedImage = some sel ∧ sel.isEmpty = false ∧
        folder.any (fun p => p.1 = sel) = false) := by
  cases hsel : st.selectedImage with
  | none => simp [getPriorityDisplayFile, hsel]
  | some sel =>
    cases hemp : sel.isEmpty with
    | true => simp [getPriorityDisplayFile, hsel, hemp]
    | false =>
      cases hany : folder.any (fun p => p.1 = sel) with
      | true => simp [getPriorityDisplayFile, hsel, hemp, hany]
      | false =>
        refine ⟨?_, ?_, ?_⟩
        · simp [getPriorityDisplayFile, hsel, hemp, hany, saveSelectedImageSetting]
        · intro h
          simp [getPriorityDisplayFile, hsel, hemp, hany] at h
        · intro _
          refine ⟨?_, sel, rfl, hemp, hany⟩
          simp [getPriorityDisplayFile, hsel, hemp, hany, saveSelectedImageSetting]

/-- C8 witness: with the selected image present in the folder the resolver
    leaves the store untouched. -/
theorem c8_amended_witness :
    (getPriorityDisplayFile stC8 [("a.png", 3)]).store = stC8 :=
  (c8_amended_resolver_effect stC8 [("a.png", 3)]).2.1 (by decide)

/-- C9 counterexample: a malformed command file is deleted and logged, but
    at error level (`logger.error` in the outer except handler), not as a
    warning as the claim states. -/
theorem c9_malformed_logged_error_counterexample :
    (processCommandFile CommandFile.malformed []).logs =
      [(LogLevel.error, "Error processing command file")] ∧
    LogLevel.error ≠ LogLevel.warning ∧
    (processCommandFile CommandFile.malformed []).deleted = true ∧
    (processCommandFile CommandFile.malformed []).raised = false := by
  refine ⟨rfl, by decide, rfl, rfl⟩

/-- C9 amended: a command whose action is not one of the known values is
    logged (as a warning) and dropped without raising; a malformed command
    file is deleted and logged at ERROR level (not warning); every
    processed command file is deleted and no processing raises, so the
    queue continues past any corrupt command. -/
theorem c9_amended_command_handling (cs : List CommandFile)
    (folder : List Filename) (a : String) (f : Option Filename) :
    (a ≠ "display_file" → a ≠ "refresh_display" → a ≠ "clear_display" →
      a ≠ "get_display_info" → a ≠ "update_display_info" →
      processCommandFile (CommandFile.cmd a f) folder =
        { deleted := true, raised := false, effect := CommandEffect.noEffect,
          logs := [(LogLevel.warning, "Unknown command action")] }) ∧
    processCommandFile CommandFile.malformed folder =
      { deleted := true, raised := false, effect := CommandEffect.noEffect,
        logs := [(LogLevel.error, "Error processing command file")] } ∧
    (∀ c, (processCommandFile c folder).deleted = true ∧
      (processCommandFile c folder).raised = false) ∧
    processCommandQueue cs folder = cs.map (fun c => processCommandFile c folder) := by
  refine ⟨?_, rfl, ?_, rfl⟩
  · intro h1 h2 h3 h4 h5
    simp [processCommandFile, h1, h2, h3, h4, h5]
  · intro c
    cases c with
    | malformed => exact ⟨rfl, rfl⟩
    | cmd b g =>
      simp only [processCommandFile]
      repeat' split
      all_goals exact ⟨rfl, rfl⟩

/-- C9 witness: the spec scenario — a command with unknown action `"foo"`
    is dropped: deleted, warning-logged, no effect, nothing raised. -/
theorem c9_amended_witness :
    processCommandFile (CommandFile.cmd "foo" none) [] =
      { deleted := true, raised := false, effect := CommandEffect.noEffect,
        logs := [(LogLevel.warning, "Unknown command action")] } :=
  (c9_amended_command_handling [] [] "foo" none).1
    (by decide) (by decide) (by decide) (by decide) (by decide)

/-- C10: a playlist-update request that passes the scalar validations
    always succeeds, and when it supplies a `files` list the persisted
    target playlist holds exactly the supplied names that exist in the
    upload folder (missing ones silently dropped) with `current_index`
    reset to 0; supplying a `randomize` value likewise resets
    `current_index` to 0. -/
theorem c10_update_resets_index (data : PlaylistUpdateData) (st : Settings)
    (folder : List Filename)
    (hint : ∀ i, data.intervalMinutes = some i → 1 ≤ i)
    (htm : ∀ t, data.liveModeTimeoutMinutes = some t → 0 ≤ t)
    (hname : ∀ nm, data.currentPlaylistName = some nm →
      (lookupPlaylist st nm).isSome = true) :
    (updatePlaylist data st folder).isOk = true ∧
    (∀ fl, data.files = some fl →
      ((lookupPlaylist (okSettings (updatePlaylist data st folder))
          (data.playlistName.getD
            (data.currentPlaylistName.getD st.playlistCurrentName))).getD
        defaultNewPlaylist).files = fl.filter (fun f => folder.contains f) ∧
      ((lookupPlaylist (okSettings (updatePlaylist data st folder))
          (data.playlistName.getD
            (data.currentPlaylistName.getD st.playlistCurrentName))).getD
        defaultNewPlaylist).currentIndex = 0) ∧
    (data.randomize.isSome = true →
      ((lookupPlaylist (okSettings (updatePlaylist data st folder))
          (data.playlistName.getD
            (data.currentPlaylistName.getD st.playlistCurrentName))).getD
        defaultNewPlaylist).currentIndex = 0) := by
  obtain ⟨st1, he1, hp1, hn1, _⟩ := updatePlaylist_reduces data st folder hint
  obtain ⟨st2, he2, hp2, hn2, _⟩ := timeoutStage_reduces data st1 folder htm
  obtain ⟨st3, he3, hp3, hn3, _⟩ := nameStage_reduces data st2 folder (by
    intro nm hnm
    have h := hname nm hnm
    simp only [lookupPlaylist] at h ⊢
    rw [hp2, hp1]
    exact h)
  have hall : updatePlaylist data st folder =
      updatePlaylistFilesStage data st3 folder := by
    rw [he1, he2, he3]
  have hname3 : st3.playlistCurrentName =
      data.currentPlaylistName.getD st.playlistCurrentName := by
    rw [hn3, hn2, hn1]
  have hspec := filesStage_spec data st3 folder
  rw [hname3] at hspec
  rw [hall]
  refine ⟨hspec.1, ?_, hspec.2.2⟩
  intro fl hfl
  exact hspec.2.1 fl hfl

/-- C10 witness: supplying `files=["a.png","ghost.png"]` with only `a.png`
    on disk succeeds and persists the playlist as `["a.png"]` with index
    0. -/
theorem c10_witness :
    (updatePlaylist dataC10 {} ["a.png"]).isOk = true ∧
    ((lookupPlaylist (okSettings (updatePlaylist dataC10 {} ["a.png"]))
        "default").getD defaultNewPlaylist).files = ["a.png"] ∧
    ((lookupPlaylist (okSettings (updatePlaylist dataC10 {} ["a.png"]))
        "default").getD defaultNewPlaylist).currentIndex = 0 := by
  have h := c10_update_resets_index dataC10 {} ["a.png"]
    (by intro i hi; simp [dataC10] at hi)
    (by intro t ht; simp [dataC10] at ht)
    (by intro nm hnm; simp [dataC10] at hnm)
  refine ⟨h.1, ?_, ?_⟩
  · have h2 := (h.2.1 ["a.png", "ghost.png"] rfl).1
    simpa [dataC10] using h2
  · have h2 := (h.2.1 ["a.png", "ghost.png"] rfl).2
    simpa [dataC10] using h2

end RpiEinky
